import Mathlib

/-!
# Blend-A-Bot: command dispatch and The Blue Alliance formatting

A shallow embedding of `main.go`: the interaction handler registered in `init`,
the `commandHandlers` table, `getTBATeam`, `getTBAEventsFor` and `formatTBATeam`.

Go strings are modelled by `String`, Go `int`/`int64` values by `Int` (the code
only prints them, it does no arithmetic on them).  A JSON number of an option is
held by the library as a `float64`; the model carries the integer that was
delivered and rounds it to 53 significant bits where the library reads it.  What the program obtains
from outside (the clock, the HTTP round trip, the JSON decoder) is an explicit
`Remote` argument.  A Go run-time panic is an `Except.error`.
-/

namespace BlendABot

/-! ## Data model -/

/-- The `TBATeam` struct (main.go, lines 33-44). -/
structure TBATeam where
  Nickname : String
  City : String
  StateProv : String
  Country : String
  RookieYear : Int
  Sponsors : String
  School : String
  Website : String
  TeamLogo : String
  TeamNumber : Int
deriving DecidableEq

/-- The `TBAEvent` struct (main.go, lines 46-49). -/
structure TBAEvent where
  Name : String
  EventKey : String
deriving DecidableEq

/-- The library type `discordgo.MessageEmbedField`, with the members the program sets. -/
structure MessageEmbedField where
  Name : String
  Value : String
  Inline : Bool
deriving DecidableEq

/-- The library type `discordgo.MessageEmbedThumbnail`, with the member the program sets. -/
structure MessageEmbedThumbnail where
  URL : String
deriving DecidableEq

/-- The library type `discordgo.MessageEmbed`, with the members the program sets.
The defaults are the zero values of Go: empty strings, a nil thumbnail, a nil slice of fields. -/
structure MessageEmbed where
  URL : String := ""
  Title : String := ""
  Description : String := ""
  Thumbnail : Option MessageEmbedThumbnail := none
  Fields : List MessageEmbedField := []
deriving DecidableEq

/-- The library type `discordgo.InteractionResponseType`; the program uses one value. -/
inductive InteractionResponseType where
  | InteractionResponseChannelMessageWithSource
deriving DecidableEq

/-- The library type `discordgo.InteractionResponseData`, with the members the program sets. -/
structure InteractionResponseData where
  Content : String := ""
  Embeds : List MessageEmbed := []
deriving DecidableEq

/-- The library type `discordgo.InteractionResponse`. -/
structure InteractionResponse where
  Typ : InteractionResponseType
  Data : InteractionResponseData
deriving DecidableEq

/-- The library type `discordgo.ApplicationCommandOptionType`. -/
inductive ApplicationCommandOptionType where
  | SubCommand | SubCommandGroup | String | Integer | Boolean
  | User | Channel | Role | Mentionable | Number | Attachment
deriving DecidableEq

/-- The dynamic value carried by a supplied option.  A `number` is a JSON number; the
platform delivers an integer option as the integer literal `n`, and the JSON decoder
stores it as the `float64` nearest to `n` (see `float64OfInt`). -/
inductive OptionValue where
  | null
  | str (s : String)
  | number (n : Int)
  | bool (b : Bool)
deriving DecidableEq

/-- The library type `discordgo.ApplicationCommandInteractionDataOption`: a supplied
option, with its nested options when it is a sub-command. -/
inductive DataOption where
  | mk (Name : String) (Typ : ApplicationCommandOptionType) (Value : OptionValue)
      (Options : List DataOption)

/-- Member `Name` of a supplied option. -/
def DataOption.Name : DataOption → String
  | .mk n _ _ _ => n

/-- Member `Type` of a supplied option. -/
def DataOption.Typ : DataOption → ApplicationCommandOptionType
  | .mk _ t _ _ => t

/-- Member `Value` of a supplied option. -/
def DataOption.Value : DataOption → OptionValue
  | .mk _ _ v _ => v

/-- Member `Options` of a supplied option. -/
def DataOption.Options : DataOption → List DataOption
  | .mk _ _ _ os => os

/-- An interaction event of the application-command kind, as `i.ApplicationCommandData()`
presents it to the handlers: the command name and the supplied options. -/
structure InteractionCreate where
  Name : String
  Options : List DataOption

/-- Run-time panics the handlers can raise before they reply. -/
inductive Panic where
  | indexOutOfRange
  | wrongOptionType
  | badTypeAssertion
deriving DecidableEq

/-- Indexing `xs[0]` in Go: the first element, or an index-out-of-range panic. -/
def index0 {α : Type} : List α → Except Panic α
  | [] => .error .indexOutOfRange
  | x :: _ => .ok x

/-- The library method `StringValue`: panics unless the option's type is String, then
asserts that the dynamic value is a string. -/
def DataOption.StringValue (o : DataOption) : Except Panic String :=
  if o.Typ ≠ .String then .error .wrongOptionType
  else match o.Value with
    | .str s => .ok s
    | _ => .error .badTypeAssertion

/-- The number of low bits a natural number loses when it is cut to 53 significant
bits: the least `s` with `m / 2 ^ s < 2 ^ 53`.  The first argument bounds the search. -/
def mantissaShift : Nat → Nat → Nat
  | 0, _ => 0
  | fuel + 1, m => if m < 2 ^ 53 then 0 else 1 + mantissaShift fuel (m / 2)

/-- The natural number that the `float64` nearest to `m` stands for: `m` cut to 53
significant bits, rounded to nearest, a tie going to the even mantissa. -/
def roundToFloat64 (m : Nat) : Nat :=
  let shift := mantissaShift m m
  if shift = 0 then m
  else
    let q := m / 2 ^ shift
    let r := m % 2 ^ shift
    let half := 2 ^ (shift - 1)
    if half < r ∨ (r = half ∧ q % 2 = 1) then (q + 1) * 2 ^ shift else q * 2 ^ shift

/-- The integer that the `float64` nearest to the JSON integer `n` stands for: what
`json.Unmarshal` stores in the `Value` of an option for the literal `n`. -/
def float64OfInt (n : Int) : Int :=
  if n < 0 then -(roundToFloat64 n.natAbs : Int) else (roundToFloat64 n.natAbs : Int)

/-- The conversion `int64(v)` of an integer-valued `float64`: the value itself when it is
in the range of `int64`; outside it Go leaves the result to the implementation, and the
model takes the one of amd64, the least `int64`. -/
def int64OfFloat64 (v : Int) : Int :=
  if -2 ^ 63 ≤ v ∧ v < 2 ^ 63 then v else -2 ^ 63

/-- The library method `IntValue`, `int64(o.Value.(float64))`: panics unless the type of
the option is Integer, asserts that the dynamic value is a `float64` and converts it to
`int64`. -/
def DataOption.IntValue (o : DataOption) : Except Panic Int :=
  if o.Typ ≠ .Integer then .error .wrongOptionType
  else match o.Value with
    | .number n => .ok (int64OfFloat64 (float64OfInt n))
    | _ => .error .badTypeAssertion

/-- The verb `%d` of `fmt.Sprintf`, and `fmt.Sprint` of one integer: the decimal digits,
after a minus sign when the number is negative. -/
def fmtInt (n : Int) : String := toString n

/-! ## The outside world -/

/-- What `client.Do` hands back: the status code and the outcome of `io.ReadAll` on the
body (`none` when reading fails). -/
structure HttpResponse where
  StatusCode : Int
  Body : Option String

/-- Everything the two lookups take from outside the program. -/
structure Remote where
  /-- The value of `time.Now().Year()`. -/
  year : Int
  /-- Whether `http.NewRequest("GET", url, nil)` returns without error. -/
  newRequest : String → Bool
  /-- The outcome of `client.Do` on a GET of the URL (`none`: transport error). -/
  clientDo : String → Option HttpResponse
  /-- The outcome of `json.Unmarshal` into a `TBATeam` (`none`: error). -/
  unmarshalTeam : String → Option TBATeam
  /-- The outcome of `json.Unmarshal` into a `[]TBAEvent` (`none`: error). -/
  unmarshalEvents : String → Option (List TBAEvent)

/-- The constant `http.StatusOK`. -/
def StatusOK : Int := 200

/-! ## Formatting and lookups -/

/-- Function `formatTBATeam` (main.go, lines 349-365); `year` is `time.Now().Year()`. -/
def formatTBATeam (year : Int) (team : TBATeam) : MessageEmbed :=
  { Title := "Team " ++ fmtInt team.TeamNumber ++ "(" ++ team.Nickname ++ ")"
    Fields := [
      { Name := "Team", Value := team.Nickname, Inline := true },
      { Name := "Location",
        Value := team.City ++ ", " ++ team.StateProv ++ ", " ++ team.Country, Inline := true },
      { Name := "Rookie Year", Value := fmtInt team.RookieYear, Inline := true },
      { Name := "Sponsors", Value := team.Sponsors, Inline := true },
      { Name := "School", Value := team.School, Inline := true },
      { Name := "Website", Value := team.Website, Inline := true } ]
    Thumbnail := some
      { URL := "https://www.thebluealliance.com/avatar/" ++ fmtInt year ++ "/frc"
          ++ fmtInt team.TeamNumber ++ ".png" }
    URL := "https://www.thebluealliance.com/team/" ++ fmtInt team.TeamNumber }

/-- The URL that `getTBATeam` requests (main.go, line 231). -/
def teamURL (teamNumber : String) : String :=
  "https://www.thebluealliance.com/api/v3/team/" ++ teamNumber

/-- The URL that `getTBAEventsFor` requests (main.go, line 284); `year` is
`time.Now().Year()`. -/
def eventsURL (year : Int) (teamNumber : String) : String :=
  "https://www.thebluealliance.com/api/v3/team/" ++ teamNumber ++ "/events/" ++ fmtInt year

/-- Function `getTBATeam` (main.go, lines 229-280).  The result is the embed together with
the URLs on which `client.Do` was called. -/
def getTBATeam (w : Remote) (teamNumber : String) : MessageEmbed × List String :=
  let url := teamURL teamNumber
  if !w.newRequest url then
    ({ Title := "Error", Description := "Error creating TBA request" }, [])
  else match w.clientDo url with
    | none => ({ Title := "Error", Description := "Error fetching TBA data" }, [url])
    | some resp =>
      match resp.Body with
      | none => ({ Title := "Error", Description := "Error reading TBA response body" }, [url])
      | some body =>
        if resp.StatusCode ≠ StatusOK then
          ({ Title := "Error",
             Description := "Error: received non-200 status code from TBA ("
               ++ fmtInt resp.StatusCode ++ ")" }, [url])
        else match w.unmarshalTeam body with
          | none => ({ Title := "Error", Description := "Error parsing TBA response" }, [url])
          | some team => (formatTBATeam w.year team, [url])

/-- The loop of `getTBAEventsFor` (main.go, lines 338-341): one formatted line per event
is appended to `eventList`. -/
def eventListLoop (eventList : String) : List TBAEvent → String
  | [] => eventList
  | event :: rest =>
    eventListLoop
      (eventList ++ ("[" ++ event.Name ++ "](https://www.thebluealliance.com/event/"
        ++ event.EventKey ++ ")\n")) rest

/-- Function `getTBAEventsFor` (main.go, lines 282-346).  The result is the embed together
with the URLs on which `client.Do` was called. -/
def getTBAEventsFor (w : Remote) (teamNumber : String) : MessageEmbed × List String :=
  let url := eventsURL w.year teamNumber
  if !w.newRequest url then
    ({ Title := "Error", Description := "Error creating TBA request" }, [])
  else match w.clientDo url with
    | none => ({ Title := "Error", Description := "Error fetching TBA data" }, [url])
    | some resp =>
      match resp.Body with
      | none => ({ Title := "Error", Description := "Error reading TBA response body" }, [url])
      | some body =>
        if resp.StatusCode ≠ StatusOK then
          ({ Title := "Error",
             Description := "Error: received non-200 status code from TBA ("
               ++ fmtInt resp.StatusCode ++ ")" }, [url])
        else match w.unmarshalEvents body with
          | none => ({ Title := "Error", Description := "Error parsing TBA response" }, [url])
          | some events =>
            if events.length = 0 then
              ({ Title := "No Events Found",
                 Description := "No events found for the specified team this year." }, [url])
            else
              ({ Title := "Events for Team " ++ teamNumber,
                 Description := eventListLoop "" events }, [url])

/-! ## Dispatch -/

/-- What a handler run did: the remote lookups it made and the replies it sent with
`s.InteractionRespond` on the event's interaction. -/
structure Effects where
  lookups : List String := []
  replies : List InteractionResponse := []
deriving DecidableEq

/-- The type of the entries of `commandHandlers`.  Every panic point of the handlers lies
before their call of `InteractionRespond`, so a panicking run has sent nothing. -/
abbrev Handler := Remote → InteractionCreate → Except Panic Effects

/-- Handler `commandHandlers["ping"]` (main.go, lines 115-125). -/
def pingHandler : Handler := fun _ _ =>
  .ok { replies := [{ Typ := .InteractionResponseChannelMessageWithSource,
                      Data := { Content := "Pong!" } }] }

/-- Handler `commandHandlers["lmgtfy"]` (main.go, lines 126-136). -/
def lmgtfyHandler : Handler := fun _ i => do
  let o ← index0 i.Options
  let q ← o.StringValue
  .ok { replies := [{ Typ := .InteractionResponseChannelMessageWithSource,
                      Data := { Content := "https://letmegooglethat.com/?q=" ++ q } }] }

/-- Handler `commandHandlers["tba"]` (main.go, lines 137-158). -/
def tbaHandler : Handler := fun w i => do
  let options := i.Options
  let subCommand ← index0 options
  let (content, lookups) ←
    if subCommand.Name = "team" then do
      let o ← index0 subCommand.Options
      let teamNumber ← o.StringValue
      pure (getTBATeam w ("frc" ++ teamNumber))
    else if subCommand.Name = "eventsfor" then do
      let o ← index0 subCommand.Options
      let teamNumber ← o.StringValue
      pure (getTBAEventsFor w ("frc" ++ teamNumber))
    else
      (pure (({} : MessageEmbed), []) : Except Panic (MessageEmbed × List String))
  .ok { lookups := lookups,
        replies := [{ Typ := .InteractionResponseChannelMessageWithSource,
                      Data := { Embeds := [content] } }] }

/-- Handler `commandHandlers["httpcat"]` (main.go, lines 159-169). -/
def httpcatHandler : Handler := fun _ i => do
  let o ← index0 i.Options
  let n ← o.IntValue
  .ok { replies := [{ Typ := .InteractionResponseChannelMessageWithSource,
                      Data := { Content := "https://http.cat/" ++ fmtInt n ++ ".jpg" } }] }

/-- The map `commandHandlers` (main.go, lines 114-170), as its list of entries. -/
def commandHandlers : List (String × Handler) :=
  [ ("ping", pingHandler),
    ("lmgtfy", lmgtfyHandler),
    ("tba", tbaHandler),
    ("httpcat", httpcatHandler) ]

/-- The handler registered in `init` (main.go, lines 173-179): look the command name up
in `commandHandlers` and run the handler found; without an entry nothing is done. -/
def interactionHandler (w : Remote) (i : InteractionCreate) : Except Panic Effects :=
  match commandHandlers.lookup i.Name with
  | some h => h w i
  | none => .ok {}

/-- The replies an event received: those of the run, none when the run panicked. -/
def repliesSent : Except Panic Effects → List InteractionResponse
  | .ok e => e.replies
  | .error _ => []

/-- The remote lookups of a run, none when the run panicked. -/
def lookupsMade : Except Panic Effects → List String
  | .ok e => e.lookups
  | .error _ => []

/-! ## Vocabulary of the properties -/

/-- The number of positions of `s` at which `pat` starts. -/
def countOccurrences (pat : List Char) : List Char → Nat
  | [] => if pat.isPrefixOf [] then 1 else 0
  | c :: cs => (if pat.isPrefixOf (c :: cs) then 1 else 0) + countOccurrences pat cs

/-- The number of occurrences of `pat` as a substring of `s`. -/
def occurrences (pat s : String) : Nat := countOccurrences pat.data s.data

/-- The string `pat` is a substring of `s`. -/
def containsStr (pat s : String) : Prop := pat.data <:+: s.data

/-- The line that stands for one event in the description of the events embed. -/
def eventLine (e : TBAEvent) : String :=
  "[" ++ e.Name ++ "](https://www.thebluealliance.com/event/" ++ e.EventKey ++ ")\n"

/-- The lines of the events, one after the other in list order. -/
def eventLines : List TBAEvent → String
  | [] => ""
  | e :: es => eventLine e ++ eventLines es

/-- The reply that carries a text and no embed. -/
def textReply (content : String) : InteractionResponse :=
  { Typ := .InteractionResponseChannelMessageWithSource,
    Data := { Content := content, Embeds := [] } }

/-- The reply that carries one embed and no text. -/
def embedReply (embed : MessageEmbed) : InteractionResponse :=
  { Typ := .InteractionResponseChannelMessageWithSource,
    Data := { Content := "", Embeds := [embed] } }

/-- The option is of type String and carries a string. -/
def isStringOption (o : DataOption) : Bool :=
  decide (o.Typ = .String) && match o.Value with
    | .str _ => true
    | _ => false

/-- The option is of type Integer and carries a number. -/
def isIntegerOption (o : DataOption) : Bool :=
  decide (o.Typ = .Integer) && match o.Value with
    | .number _ => true
    | _ => false

/-- The list has a first element and it satisfies `p`. -/
def firstIs (p : DataOption → Bool) : List DataOption → Bool
  | [] => false
  | o :: _ => p o

/-- The event supplies what the registered command definitions (main.go, lines 52-113)
require of the options its handler reads: a first string option for `lmgtfy`, a first
integer option for `httpcat`, a first option for `tba` which, when it is named `team` or
`eventsfor`, has a first string option itself. -/
def optionsAsRegistered (i : InteractionCreate) : Bool :=
  if i.Name = "lmgtfy" then firstIs isStringOption i.Options
  else if i.Name = "httpcat" then firstIs isIntegerOption i.Options
  else if i.Name = "tba" then
    firstIs (fun sc =>
      if sc.Name = "team" ∨ sc.Name = "eventsfor" then firstIs isStringOption sc.Options
      else true) i.Options
  else true

/-! ## Concrete inputs -/

/-- A remote side on which every request is created and every round trip fails. -/
def offlineRemote : Remote :=
  { year := 2025, newRequest := fun _ => true, clientDo := fun _ => none,
    unmarshalTeam := fun _ => none, unmarshalEvents := fun _ => none }

/-- A remote side that answers every request with the given status and body, and decodes
every body to the given team and events. -/
def fixedRemote (status : Int) (body : String) (team : Option TBATeam)
    (events : Option (List TBAEvent)) : Remote :=
  { year := 2025, newRequest := fun _ => true,
    clientDo := fun _ => some { StatusCode := status, Body := some body },
    unmarshalTeam := fun _ => team, unmarshalEvents := fun _ => events }

/-- A remote side that answers every request with the given status and a body that
cannot be read. -/
def unreadableRemote (status : Int) : Remote :=
  { year := 2025, newRequest := fun _ => true,
    clientDo := fun _ => some { StatusCode := status, Body := none },
    unmarshalTeam := fun _ => none, unmarshalEvents := fun _ => none }

/-- The record of FRC team 4, whose nickname repeats its number. -/
def teamElement : TBATeam :=
  { Nickname := "Team 4 ELEMENT", City := "Van Nuys", StateProv := "California",
    Country := "USA", RookieYear := 1997, Sponsors := "", School := "",
    Website := "", TeamLogo := "", TeamNumber := 4 }

/-- The record of a team with a short nickname. -/
def teamCheesy : TBATeam :=
  { Nickname := "The Cheesy Poofs", City := "San Jose", StateProv := "California",
    Country := "USA", RookieYear := 1999, Sponsors := "NASA", School := "Bellarmine",
    Website := "https://www.team254.com", TeamLogo := "", TeamNumber := 254 }

/-- A record whose nickname is the word the title starts with. -/
def teamNamedTeam : TBATeam :=
  { Nickname := "Team", City := "", StateProv := "", Country := "", RookieYear := 2020,
    Sponsors := "", School := "", Website := "", TeamLogo := "", TeamNumber := 9999 }

/-- Two events of one season. -/
def twoEvents : List TBAEvent :=
  [ { Name := "Silicon Valley Regional", EventKey := "2025casj" },
    { Name := "Championship", EventKey := "2025cmptx" } ]

/-! ## Remote lookups -/

/-- A substring occurs at one position at least. -/
theorem countOccurrences_pos (pat pre post : List Char) :
    1 ≤ countOccurrences pat (pre ++ (pat ++ post)) := by
  induction pre with
  | nil =>
    cases pat with
    | nil => cases post <;> simp [countOccurrences]
    | cons c cs => simp [countOccurrences]
  | cons c cs ih =>
    have hstep : countOccurrences pat (c :: cs ++ (pat ++ post))
        = (if pat.isPrefixOf (c :: (cs ++ (pat ++ post))) then 1 else 0)
          + countOccurrences pat (cs ++ (pat ++ post)) := rfl
    omega

/-- The loop appends the lines of the events to what it starts from. -/
theorem eventListLoop_eq (events : List TBAEvent) (start : String) :
    eventListLoop start events = start ++ eventLines events := by
  induction events generalizing start with
  | nil => simp [eventListLoop, eventLines]
  | cons e es ih =>
    simp only [eventListLoop, eventLines, ih]
    simp [eventLine, String.append_assoc]

/-- C3, counterexample: on a response with status 500 whose body cannot be read, both
lookups return the description "Error reading TBA response body", which does not contain
"500". -/
theorem unreadable_body_hides_status :
    (getTBATeam (unreadableRemote 500) "frc254").1.Description
      = "Error reading TBA response body" ∧
    ¬ containsStr (fmtInt 500) (getTBATeam (unreadableRemote 500) "frc254").1.Description ∧
    (getTBAEventsFor (unreadableRemote 500) "frc254").1.Description
      = "Error reading TBA response body" ∧
    ¬ containsStr (fmtInt 500)
      (getTBAEventsFor (unreadableRemote 500) "frc254").1.Description := by
  have hno : ¬ containsStr (fmtInt 500) "Error reading TBA response body" := by
    intro h
    have hmem : ('5' : Char) ∈ ("Error reading TBA response body" : String).data :=
      h.subset (by decide)
    exact absurd hmem (by decide)
  exact ⟨rfl, hno, rfl, hno⟩

/-- C3, amended: when the remote response has a status code outside 200..299, both
`getTBATeam` and `getTBAEventsFor` return an embed whose title is "Error"; when the body
of the response was read, whatever it is, the description contains the decimal rendering
of the status code; when reading the body failed, the description is
"Error reading TBA response body". -/
theorem non2xx_status_gives_error (w : Remote) (teamNumber : String) (resp : HttpResponse)
    (hstatus : ¬ (200 ≤ resp.StatusCode ∧ resp.StatusCode ≤ 299)) :
    (w.newRequest (teamURL teamNumber) = true →
      w.clientDo (teamURL teamNumber) = some resp →
      (getTBATeam w teamNumber).1.Title = "Error" ∧
      (∀ body, resp.Body = some body →
        containsStr (fmtInt resp.StatusCode) (getTBATeam w teamNumber).1.Description) ∧
      (resp.Body = none →
        (getTBATeam w teamNumber).1.Description = "Error reading TBA response body")) ∧
    (w.newRequest (eventsURL w.year teamNumber) = true →
      w.clientDo (eventsURL w.year teamNumber) = some resp →
      (getTBAEventsFor w teamNumber).1.Title = "Error" ∧
      (∀ body, resp.Body = some body →
        containsStr (fmtInt resp.StatusCode) (getTBAEventsFor w teamNumber).1.Description) ∧
      (resp.Body = none →
        (getTBAEventsFor w teamNumber).1.Description = "Error reading TBA response body")) := by
  have hne : resp.StatusCode ≠ 200 := by omega
  obtain ⟨status, read⟩ := resp
  constructor
  · intro hreq hdo
    cases read with
    | none => simp [getTBATeam, hreq, hdo]
    | some body =>
      simp only [getTBATeam, hreq, hdo, StatusOK]
      simp only [hne, ne_eq, not_false_eq_true, if_true, Bool.not_true, Bool.false_eq_true,
        if_false, containsStr, String.data_append, true_and]
      exact ⟨fun _ _ => ⟨_, _, rfl⟩, fun h => by simp at h⟩
  · intro hreq hdo
    cases read with
    | none => simp [getTBAEventsFor, hreq, hdo]
    | some body =>
      simp only [getTBAEventsFor, hreq, hdo, StatusOK]
      simp only [hne, ne_eq, not_false_eq_true, if_true, Bool.not_true, Bool.false_eq_true,
        if_false, containsStr, String.data_append, true_and]
      exact ⟨fun _ _ => ⟨_, _, rfl⟩, fun h => by simp at h⟩

/-- Witness of the amended C3 at status 404 with a body that was read. -/
theorem non2xx_status_gives_error_witness :
    ¬ ((200 : Int) ≤ 404 ∧ (404 : Int) ≤ 299) ∧
    (getTBATeam (fixedRemote 404 "not found" none none) "frc254").1.Title = "Error" ∧
    containsStr (fmtInt 404)
      (getTBATeam (fixedRemote 404 "not found" none none) "frc254").1.Description ∧
    (getTBAEventsFor (fixedRemote 404 "not found" none none) "frc254").1.Title = "Error" ∧
    containsStr (fmtInt 404)
      (getTBAEventsFor (fixedRemote 404 "not found" none none) "frc254").1.Description :=
  have h := non2xx_status_gives_error (fixedRemote 404 "not found" none none) "frc254"
    { StatusCode := 404, Body := some "not found" } (by decide)
  ⟨by decide, (h.1 rfl rfl).1, (h.1 rfl rfl).2.1 "not found" rfl,
    (h.2 rfl rfl).1, (h.2 rfl rfl).2.1 "not found" rfl⟩

/-- C4: when the response has status 200 and decodes to an empty event list,
`getTBAEventsFor` returns, for every team identifier, the embed with title
"No Events Found" and description "No events found for the specified team this year.";
the description is not empty. -/
theorem no_events_found (w : Remote) (teamNumber body : String)
    (hreq : w.newRequest (eventsURL w.year teamNumber) = true)
    (hdo : w.clientDo (eventsURL w.year teamNumber)
      = some { StatusCode := 200, Body := some body })
    (hdec : w.unmarshalEvents body = some []) :
    (getTBAEventsFor w teamNumber).1
      = { URL := "", Title := "No Events Found",
          Description := "No events found for the specified team this year.",
          Thumbnail := none, Fields := [] } ∧
    (getTBAEventsFor w teamNumber).1.Description ≠ "" := by
  have h : (getTBAEventsFor w teamNumber).1
      = { URL := "", Title := "No Events Found",
          Description := "No events found for the specified team this year.",
          Thumbnail := none, Fields := [] } := by
    simp [getTBAEventsFor, hreq, hdo, hdec, StatusOK]
  refine ⟨h, ?_⟩
  rw [h]
  decide

/-- Witness of C4 at team "frc254". -/
theorem no_events_found_witness :
    (getTBAEventsFor (fixedRemote 200 "none" none (some [])) "frc254").1
      = { URL := "", Title := "No Events Found",
          Description := "No events found for the specified team this year.",
          Thumbnail := none, Fields := [] } ∧
    (getTBAEventsFor (fixedRemote 200 "none" none (some [])) "frc254").1.Description ≠ "" :=
  no_events_found (fixedRemote 200 "none" none (some [])) "frc254" "none" rfl rfl rfl

/-- C5: when the response has status 200 and decodes to a non-empty event list,
`getTBAEventsFor` on team identifier `t` returns an embed whose title is
"Events for Team " followed by `t`, so that it contains `t`, and whose description is
exactly the lines "[" + name + "](https://www.thebluealliance.com/event/" + key + ")\n" of
the events, one per event, in list order. -/
theorem events_listed (w : Remote) (teamNumber body : String) (events : List TBAEvent)
    (hreq : w.newRequest (eventsURL w.year teamNumber) = true)
    (hdo : w.clientDo (eventsURL w.year teamNumber)
      = some { StatusCode := 200, Body := some body })
    (hdec : w.unmarshalEvents body = some events) (hne : events ≠ []) :
    (getTBAEventsFor w teamNumber).1
      = { URL := "", Title := "Events for Team " ++ teamNumber,
          Description := eventLines events, Thumbnail := none, Fields := [] } ∧
    containsStr teamNumber (getTBAEventsFor w teamNumber).1.Title := by
  have h : (getTBAEventsFor w teamNumber).1
      = { URL := "", Title := "Events for Team " ++ teamNumber,
          Description := eventLines events, Thumbnail := none, Fields := [] } := by
    simp [getTBAEventsFor, hreq, hdo, hdec, StatusOK, hne, eventListLoop_eq]
  refine ⟨h, ?_⟩
  rw [h]
  simp only [containsStr, String.data_append]
  exact (List.suffix_append _ _).isInfix

/-- Witness of C5 at two events. -/
theorem events_listed_witness :
    twoEvents ≠ [] ∧
    (getTBAEventsFor (fixedRemote 200 "events" none (some twoEvents)) "frc254").1
      = { URL := "", Title := "Events for Team frc254",
          Description := "[Silicon Valley Regional](https://www.thebluealliance.com/event/2025casj)\n[Championship](https://www.thebluealliance.com/event/2025cmptx)\n",
          Thumbnail := none, Fields := [] } :=
  ⟨by decide,
   (events_listed (fixedRemote 200 "events" none (some twoEvents)) "frc254" "events" twoEvents
      rfl rfl rfl (by decide)).1.trans (by decide)⟩

/-- On a 200 response that decodes to a record, `getTBATeam` returns its formatting. -/
theorem getTBATeam_ok (w : Remote) (teamNumber body : String) (team : TBATeam)
    (hreq : w.newRequest (teamURL teamNumber) = true)
    (hdo : w.clientDo (teamURL teamNumber) = some { StatusCode := 200, Body := some body })
    (hdec : w.unmarshalTeam body = some team) :
    getTBATeam w teamNumber = (formatTBATeam w.year team, [teamURL teamNumber]) := by
  simp [getTBATeam, hreq, hdo, hdec, StatusOK]

/-- C2, counterexample: for the record of team 4, nicknamed "Team 4 ELEMENT", the title is
"Team 4(Team 4 ELEMENT)", in which "4" occurs twice; for a record nicknamed "Team" the
nickname occurs twice in the title. -/
theorem team_title_repeats :
    (getTBATeam (fixedRemote 200 "team" (some teamElement) none) "frc4").1
      = formatTBATeam 2025 teamElement ∧
    (formatTBATeam 2025 teamElement).Title = "Team 4(Team 4 ELEMENT)" ∧
    occurrences (fmtInt teamElement.TeamNumber) (formatTBATeam 2025 teamElement).Title = 2 ∧
    occurrences teamNamedTeam.Nickname (formatTBATeam 2025 teamNamedTeam).Title = 2 := by
  decide

/-- C2, amended: on a 200 response that decodes to a team record, `getTBATeam` returns
`formatTBATeam` of the record, whose title is "Team " + team number + "(" + nickname + ")";
the decimal rendering of the team number and the nickname each occur in it at least once. -/
theorem team_title_contains (w : Remote) (teamNumber body : String) (team : TBATeam)
    (hreq : w.newRequest (teamURL teamNumber) = true)
    (hdo : w.clientDo (teamURL teamNumber) = some { StatusCode := 200, Body := some body })
    (hdec : w.unmarshalTeam body = some team) :
    (getTBATeam w teamNumber).1 = formatTBATeam w.year team ∧
    (getTBATeam w teamNumber).1.Title
      = "Team " ++ fmtInt team.TeamNumber ++ "(" ++ team.Nickname ++ ")" ∧
    1 ≤ occurrences (fmtInt team.TeamNumber) (getTBATeam w teamNumber).1.Title ∧
    1 ≤ occurrences team.Nickname (getTBATeam w teamNumber).1.Title := by
  rw [getTBATeam_ok w teamNumber body team hreq hdo hdec]
  refine ⟨rfl, rfl, ?_, ?_⟩
  · simp only [occurrences, formatTBATeam, String.data_append, List.append_assoc]
    exact countOccurrences_pos _ _ _
  · simp only [occurrences, formatTBATeam, String.data_append, List.append_assoc]
    rw [← List.append_assoc, ← List.append_assoc]
    exact countOccurrences_pos _ _ _

/-- Witness of the amended C2 at team 254. -/
theorem team_title_contains_witness :
    (getTBATeam (fixedRemote 200 "team" (some teamCheesy) none) "frc254").1.Title
      = "Team 254(The Cheesy Poofs)" ∧
    1 ≤ occurrences "254"
      (getTBATeam (fixedRemote 200 "team" (some teamCheesy) none) "frc254").1.Title ∧
    1 ≤ occurrences "The Cheesy Poofs"
      (getTBATeam (fixedRemote 200 "team" (some teamCheesy) none) "frc254").1.Title :=
  have h := team_title_contains (fixedRemote 200 "team" (some teamCheesy) none) "frc254" "team"
    teamCheesy rfl rfl rfl
  ⟨h.2.1.trans (by decide), h.2.2.1, h.2.2.2⟩

/-! ## Dispatch -/

/-- Reading a string option succeeds exactly when the option is a string option. -/
theorem StringValue_cases (o : DataOption) :
    (isStringOption o = true ∧ ∃ s, o.StringValue = .ok s) ∨
    (isStringOption o = false ∧ ∃ p, o.StringValue = .error p) := by
  obtain ⟨name, typ, value, sub⟩ := o
  cases typ <;> cases value <;>
    simp [DataOption.StringValue, DataOption.Typ, DataOption.Value, isStringOption]

/-- Reading an integer option succeeds exactly when the option is an integer option. -/
theorem IntValue_cases (o : DataOption) :
    (isIntegerOption o = true ∧ ∃ n, o.IntValue = .ok n) ∨
    (isIntegerOption o = false ∧ ∃ p, o.IntValue = .error p) := by
  obtain ⟨name, typ, value, sub⟩ := o
  cases typ <;> cases value <;>
    simp [DataOption.IntValue, DataOption.Typ, DataOption.Value, isIntegerOption]

/-- The handler of `lmgtfy` replies once when its first option is a string, and not at
all otherwise. -/
theorem lmgtfy_count (w : Remote) (name : String) (options : List DataOption) :
    (repliesSent (lmgtfyHandler w { Name := name, Options := options })).length
      = if firstIs isStringOption options then 1 else 0 := by
  cases options with
  | nil => rfl
  | cons o rest =>
    rcases StringValue_cases o with ⟨hyes, s, hs⟩ | ⟨hno, p, hp⟩
    · simp [lmgtfyHandler, index0, hs, firstIs, hyes, bind, Except.bind, repliesSent]
    · simp [lmgtfyHandler, index0, hp, firstIs, hno, bind, Except.bind, repliesSent]

/-- The handler of `httpcat` replies once when its first option is an integer, and not
at all otherwise. -/
theorem httpcat_count (w : Remote) (name : String) (options : List DataOption) :
    (repliesSent (httpcatHandler w { Name := name, Options := options })).length
      = if firstIs isIntegerOption options then 1 else 0 := by
  cases options with
  | nil => rfl
  | cons o rest =>
    rcases IntValue_cases o with ⟨hyes, n, hn⟩ | ⟨hno, p, hp⟩
    · simp [httpcatHandler, index0, hn, firstIs, hyes, bind, Except.bind, repliesSent]
    · simp [httpcatHandler, index0, hp, firstIs, hno, bind, Except.bind, repliesSent]

/-- The handler of `tba` replies once when it has a first option whose own first option,
if the handler reads it, is a string, and not at all otherwise. -/
theorem tba_count (w : Remote) (name : String) (options : List DataOption) :
    (repliesSent (tbaHandler w { Name := name, Options := options })).length
      = if firstIs (fun sc =>
            if sc.Name = "team" ∨ sc.Name = "eventsfor" then firstIs isStringOption sc.Options
            else true) options then 1 else 0 := by
  cases options with
  | nil => rfl
  | cons sc rest =>
    obtain ⟨nm, typ, value, sub⟩ := sc
    by_cases hteam : nm = "team"
    · cases sub with
      | nil =>
        simp [tbaHandler, index0, firstIs, hteam, bind, Except.bind, repliesSent,
          DataOption.Name, DataOption.Options]
      | cons o more =>
        rcases StringValue_cases o with ⟨hyes, s, hs⟩ | ⟨hno, p, hp⟩
        · simp [tbaHandler, index0, firstIs, hteam, bind, Except.bind, repliesSent,
            DataOption.Name, DataOption.Options, hs, hyes, pure, Except.pure]
        · simp [tbaHandler, index0, firstIs, hteam, bind, Except.bind, repliesSent,
            DataOption.Name, DataOption.Options, hp, hno]
    · by_cases hevents : nm = "eventsfor"
      · cases sub with
        | nil =>
          simp [tbaHandler, index0, firstIs, hevents, bind, Except.bind, repliesSent,
            DataOption.Name, DataOption.Options]
        | cons o more =>
          rcases StringValue_cases o with ⟨hyes, s, hs⟩ | ⟨hno, p, hp⟩
          · simp [tbaHandler, index0, firstIs, hevents, bind, Except.bind, repliesSent,
              DataOption.Name, DataOption.Options, hs, hyes, pure, Except.pure]
          · simp [tbaHandler, index0, firstIs, hevents, bind, Except.bind, repliesSent,
              DataOption.Name, DataOption.Options, hp, hno]
      · simp [tbaHandler, index0, firstIs, hteam, hevents, bind, Except.bind, repliesSent,
          DataOption.Name, pure, Except.pure]

/-- The number of replies to an event: one when the command name is a key of
`commandHandlers` and the options read are as registered, none otherwise. -/
theorem dispatch_count (w : Remote) (i : InteractionCreate) :
    (repliesSent (interactionHandler w i)).length
      = if i.Name ∈ ["ping", "lmgtfy", "tba", "httpcat"] ∧ optionsAsRegistered i = true
        then 1 else 0 := by
  obtain ⟨name, options⟩ := i
  by_cases hping : name = "ping"
  · subst hping
    simp [interactionHandler, commandHandlers, List.lookup, pingHandler, repliesSent,
      optionsAsRegistered]
  · by_cases hl : name = "lmgtfy"
    · subst hl
      have h := lmgtfy_count w "lmgtfy" options
      simp [interactionHandler, commandHandlers, List.lookup, optionsAsRegistered] at h ⊢
      exact h
    · by_cases ht : name = "tba"
      · subst ht
        have h := tba_count w "tba" options
        simp [interactionHandler, commandHandlers, List.lookup, optionsAsRegistered] at h ⊢
        exact h
      · by_cases hh : name = "httpcat"
        · subst hh
          have h := httpcat_count w "httpcat" options
          simp [interactionHandler, commandHandlers, List.lookup, optionsAsRegistered] at h ⊢
          exact h
        · have e1 : (name == "ping") = false := by simpa using hping
          have e2 : (name == "lmgtfy") = false := by simpa using hl
          have e3 : (name == "tba") = false := by simpa using ht
          have e4 : (name == "httpcat") = false := by simpa using hh
          simp [interactionHandler, commandHandlers, List.lookup, hping, hl, ht, hh,
            e1, e2, e3, e4, repliesSent]

/-- C1, counterexample: an event whose command name has no entry in `commandHandlers`
receives no reply, and so does an event of `lmgtfy` that supplies no option. -/
theorem unregistered_command_no_reply :
    (repliesSent (interactionHandler offlineRemote { Name := "help", Options := [] })).length = 0 ∧
    (repliesSent (interactionHandler offlineRemote { Name := "help", Options := [] })).length ≠ 1 ∧
    (repliesSent (interactionHandler offlineRemote { Name := "lmgtfy", Options := [] })).length
      = 0 := by
  decide

/-- C1, amended: no event receives more than one reply; an event whose command name is
not a key of `commandHandlers` receives none; an event whose command name is a key and
whose options are those the registered command definitions require receives exactly one. -/
theorem dispatch_reply_count (w : Remote) (i : InteractionCreate) :
    (repliesSent (interactionHandler w i)).length ≤ 1 ∧
    (i.Name ∉ ["ping", "lmgtfy", "tba", "httpcat"] →
      (repliesSent (interactionHandler w i)).length = 0) ∧
    (i.Name ∈ ["ping", "lmgtfy", "tba", "httpcat"] → optionsAsRegistered i = true →
      (repliesSent (interactionHandler w i)).length = 1) := by
  rw [dispatch_count]
  refine ⟨?_, ?_, ?_⟩
  · split <;> omega
  · intro h
    simp [h]
  · intro h1 h2
    simp [h1, h2]

/-- Witness of the amended C1: a `tba team` event receives one reply, an unknown command
none. -/
theorem dispatch_reply_count_witness :
    (repliesSent (interactionHandler offlineRemote
      { Name := "tba",
        Options := [.mk "team" .SubCommand .null [.mk "teamnumber" .String (.str "254") []]] })).length
      = 1 ∧
    (repliesSent (interactionHandler offlineRemote { Name := "help", Options := [] })).length
      = 0 :=
  ⟨(dispatch_reply_count offlineRemote
      { Name := "tba",
        Options := [.mk "team" .SubCommand .null [.mk "teamnumber" .String (.str "254") []]] }).2.2
      (by decide) (by decide),
   (dispatch_reply_count offlineRemote { Name := "help", Options := [] }).2.1 (by decide)⟩

/-! ## Static commands -/

/-- C10: an event with command name "ping", whatever its option list, receives exactly
one reply, with content "Pong!" and no embeds; no remote lookup is made. -/
theorem ping_replies_pong (w : Remote) (options : List DataOption) :
    interactionHandler w { Name := "ping", Options := options }
      = .ok { lookups := [], replies := [textReply "Pong!"] } ∧
    (repliesSent (interactionHandler w { Name := "ping", Options := options })).length = 1 ∧
    (textReply "Pong!").Data.Content = "Pong!" ∧ (textReply "Pong!").Data.Embeds = [] := by
  refine ⟨rfl, rfl, rfl, rfl⟩

/-- C8: an event with command name "lmgtfy" whose first option has the string value `q`
receives exactly one reply, whose content is "https://letmegooglethat.com/?q=" followed by
`q` unchanged; for `q = "cats"` that is "https://letmegooglethat.com/?q=cats". -/
theorem lmgtfy_replies_link :
    (∀ (w : Remote) (q name : String) (sub rest : List DataOption),
      interactionHandler w
          { Name := "lmgtfy", Options := .mk name .String (.str q) sub :: rest }
        = .ok { lookups := [],
                replies := [textReply ("https://letmegooglethat.com/?q=" ++ q)] }) ∧
    repliesSent (interactionHandler offlineRemote
        { Name := "lmgtfy", Options := [.mk "search" .String (.str "cats") []] })
      = [textReply "https://letmegooglethat.com/?q=cats"] := by
  refine ⟨fun _ _ _ _ _ => rfl, by decide⟩

/-- C7: an event with command name "tba" whose first option is named neither "team" nor
"eventsfor" makes no remote lookup and receives exactly one reply, whose single embed is
the default embed (empty title, empty description, no fields, no thumbnail, no link),
whatever the options of the sub-command are. -/
theorem tba_unknown_subcommand (w : Remote) (name : String)
    (typ : ApplicationCommandOptionType) (value : OptionValue) (sub rest : List DataOption)
    (hteam : name ≠ "team") (hevents : name ≠ "eventsfor") :
    interactionHandler w { Name := "tba", Options := .mk name typ value sub :: rest }
      = .ok { lookups := [],
              replies := [embedReply { URL := "", Title := "", Description := "",
                                       Thumbnail := none, Fields := [] }] } := by
  simp [interactionHandler, commandHandlers, List.lookup, tbaHandler, index0, DataOption.Name,
    hteam, hevents, embedReply, bind, Except.bind, pure, Except.pure]

/-- Witness of C7 at the sub-command name "matches". -/
theorem tba_unknown_subcommand_witness :
    interactionHandler offlineRemote
        { Name := "tba",
          Options := [.mk "matches" .SubCommand .null [.mk "teamnumber" .String (.str "254") []]] }
      = .ok { lookups := [],
              replies := [embedReply { URL := "", Title := "", Description := "",
                                       Thumbnail := none, Fields := [] }] } :=
  tba_unknown_subcommand offlineRemote "matches" .SubCommand .null
    [.mk "teamnumber" .String (.str "254") []] [] (by decide) (by decide)

/-- C6: for every team record and every current year `y`, `formatTBATeam` returns an embed
with exactly the six fields Team, Location, Rookie Year, Sponsors, School, Website in this
order, valued by the nickname, city + ", " + state/province + ", " + country, the decimal
rookie year, the sponsor name, the school name and the website; the thumbnail URL is
"https://www.thebluealliance.com/avatar/" + y + "/frc" + team number + ".png" and the link
is "https://www.thebluealliance.com/team/" + team number. -/
theorem formatTBATeam_fields (y : Int) (team : TBATeam) :
    (formatTBATeam y team).Fields.map (fun f => (f.Name, f.Value))
      = [ ("Team", team.Nickname),
          ("Location", team.City ++ ", " ++ team.StateProv ++ ", " ++ team.Country),
          ("Rookie Year", fmtInt team.RookieYear),
          ("Sponsors", team.Sponsors),
          ("School", team.School),
          ("Website", team.Website) ] ∧
    (formatTBATeam y team).Fields.length = 6 ∧
    (formatTBATeam y team).Thumbnail
      = some { URL := "https://www.thebluealliance.com/avatar/" ++ fmtInt y ++ "/frc"
                 ++ fmtInt team.TeamNumber ++ ".png" } ∧
    (formatTBATeam y team).URL
      = "https://www.thebluealliance.com/team/" ++ fmtInt team.TeamNumber := by
  refine ⟨rfl, rfl, rfl, rfl⟩

end BlendABot
